import Mathlib

/-!
# Verification of the nautilus_trader data engine core

Shallow embedding of `src/nautilus_core/data/src/engine/mod.rs` and
`src/nautilus_core/model/src/data/bar_api.rs`.

External collaborators (identifiers, enums, the cache facade, the message
bus, the client adapter) are not part of the given sources; they are
modelled from the specification and each such definition carries a doc
comment starting with `Modelled from the spec:`.  The message bus is
modelled as an event trace (`BusEvent`) emitted by each engine operation,
so that ordering of cache writes and publications is observable.
-/

namespace Nautilus

/-- Modelled from the spec: `ClientId` is an opaque identifier with value
equality and total ordering (identifiers module is outside `src/`). -/
structure ClientId where
  cid : Nat
  deriving DecidableEq

/-- Modelled from the spec: `Venue` is an opaque identifier with value
equality and total ordering. -/
structure Venue where
  vid : Nat
  deriving DecidableEq

/-- Modelled from the spec: `InstrumentId` is an opaque identifier with
value equality and total ordering. -/
structure InstrumentId where
  iid : Nat
  deriving DecidableEq

/-- Modelled from the spec: the `BarAggregation` enum consumed by
`bar_api.rs` (`crate::enums`, outside `src/`); fieldless enum with
integer discriminants. -/
inductive BarAggregation where
  | tick
  | tickImbalance
  | tickRuns
  | volume
  | volumeImbalance
  | volumeRuns
  | value
  | valueImbalance
  | valueRuns
  | millisecond
  | second
  | minute
  | hour
  | day
  | week
  | month
  deriving DecidableEq, Fintype

/-- Discriminant of a `BarAggregation` variant. -/
def BarAggregation.toNat : BarAggregation → Nat
  | .tick => 1
  | .tickImbalance => 2
  | .tickRuns => 3
  | .volume => 4
  | .volumeImbalance => 5
  | .volumeRuns => 6
  | .value => 7
  | .valueImbalance => 8
  | .valueRuns => 9
  | .millisecond => 10
  | .second => 11
  | .minute => 12
  | .hour => 13
  | .day => 14
  | .week => 15
  | .month => 16

/-- Modelled from the spec: `BarAggregation::from_repr`; decodes an
integer discriminant, `none` when the value is not a valid discriminant. -/
def BarAggregation.from_repr : Nat → Option BarAggregation
  | 1 => some .tick
  | 2 => some .tickImbalance
  | 3 => some .tickRuns
  | 4 => some .volume
  | 5 => some .volumeImbalance
  | 6 => some .volumeRuns
  | 7 => some .value
  | 8 => some .valueImbalance
  | 9 => some .valueRuns
  | 10 => some .millisecond
  | 11 => some .second
  | 12 => some .minute
  | 13 => some .hour
  | 14 => some .day
  | 15 => some .week
  | 16 => some .month
  | _ => none

/-- Modelled from the spec: the `PriceType` enum consumed by `bar_api.rs`. -/
inductive PriceType where
  | bid
  | ask
  | mid
  | last
  deriving DecidableEq, Fintype

/-- Discriminant of a `PriceType` variant. -/
def PriceType.toNat : PriceType → Nat
  | .bid => 1
  | .ask => 2
  | .mid => 3
  | .last => 4

/-- Modelled from the spec: `PriceType::from_repr`. -/
def PriceType.from_repr : Nat → Option PriceType
  | 1 => some .bid
  | 2 => some .ask
  | 3 => some .mid
  | 4 => some .last
  | _ => none

/-- Modelled from the spec: the `AggregationSource` enum consumed by
`bar_api.rs`. -/
inductive AggregationSource where
  | external
  | internal
  deriving DecidableEq, Fintype

/-- Discriminant of an `AggregationSource` variant. -/
def AggregationSource.toNat : AggregationSource → Nat
  | .external => 1
  | .internal => 2

/-- Modelled from the spec: `AggregationSource::from_repr`. -/
def AggregationSource.from_repr : Nat → Option AggregationSource
  | 1 => some .external
  | 2 => some .internal
  | _ => none

/-- Modelled from the spec: `BarSpecification` record (`super::bar`,
outside `src/`): step, aggregation method and price type. -/
structure BarSpecification where
  step : Nat
  aggregation : BarAggregation
  price_type : PriceType
  deriving DecidableEq

/-- Modelled from the spec: `BarType` is the
(InstrumentId, aggregation spec, aggregation source) triple. -/
structure BarType where
  instrument_id : InstrumentId
  spec : BarSpecification
  aggregation_source : AggregationSource
  deriving DecidableEq

/-- Integer comparison, the order on which the derived Rust `Ord`
instances for field types are built. -/
def ncmp (a b : Nat) : Ordering :=
  if a < b then Ordering.lt else if a = b then Ordering.eq else Ordering.gt

/-- Lexicographic composition of comparisons, as in the derived Rust
`Ord` for records: the second comparison counts only on equality. -/
def othen (o1 o2 : Ordering) : Ordering :=
  match o1 with
  | Ordering.eq => o2
  | o => o

/-- Comparison on `BarAggregation` by discriminant, as derived in Rust. -/
def BarAggregation.cmp (a b : BarAggregation) : Ordering :=
  ncmp a.toNat b.toNat

/-- Comparison on `PriceType` by discriminant, as derived in Rust. -/
def PriceType.cmp (a b : PriceType) : Ordering :=
  ncmp a.toNat b.toNat

/-- Comparison on `AggregationSource` by discriminant, as derived in Rust. -/
def AggregationSource.cmp (a b : AggregationSource) : Ordering :=
  ncmp a.toNat b.toNat

/-- Comparison on `InstrumentId`, modelled from the spec: opaque
identifier with a total order. -/
def InstrumentId.cmp (a b : InstrumentId) : Ordering :=
  ncmp a.iid b.iid

/-- Lexicographic comparison on `BarSpecification`
(step, aggregation, price_type), as the derived Rust `Ord`. -/
def BarSpecification.cmp (a b : BarSpecification) : Ordering :=
  othen (ncmp a.step b.step)
    (othen (BarAggregation.cmp a.aggregation b.aggregation)
      (PriceType.cmp a.price_type b.price_type))

/-- Lexicographic comparison on `BarType`
(instrument_id, spec, aggregation_source), as the derived Rust `Ord`. -/
def BarType.cmp (a b : BarType) : Ordering :=
  othen (InstrumentId.cmp a.instrument_id b.instrument_id)
    (othen (BarSpecification.cmp a.spec b.spec)
      (AggregationSource.cmp a.aggregation_source b.aggregation_source))

/-! ## C ABI comparison functions from `bar_api.rs`

Each returns `u8::from` of the Rust comparison, embedded as `Nat`
(values only 0 or 1, no overflow). -/

/-- `bar_specification_eq`: `u8::from(lhs == rhs)`. -/
def bar_specification_eq (lhs rhs : BarSpecification) : Nat :=
  if lhs = rhs then 1 else 0

/-- `bar_specification_lt`: `u8::from(lhs < rhs)`. -/
def bar_specification_lt (lhs rhs : BarSpecification) : Nat :=
  if BarSpecification.cmp lhs rhs = Ordering.lt then 1 else 0

/-- `bar_specification_le`: `u8::from(lhs <= rhs)`. -/
def bar_specification_le (lhs rhs : BarSpecification) : Nat :=
  if BarSpecification.cmp lhs rhs = Ordering.gt then 0 else 1

/-- `bar_specification_gt`: `u8::from(lhs > rhs)`. -/
def bar_specification_gt (lhs rhs : BarSpecification) : Nat :=
  if BarSpecification.cmp lhs rhs = Ordering.gt then 1 else 0

/-- `bar_specification_ge`: `u8::from(lhs >= rhs)`. -/
def bar_specification_ge (lhs rhs : BarSpecification) : Nat :=
  if BarSpecification.cmp lhs rhs = Ordering.lt then 0 else 1

/-- `bar_type_eq`: `u8::from(lhs == rhs)`. -/
def bar_type_eq (lhs rhs : BarType) : Nat :=
  if lhs = rhs then 1 else 0

/-- `bar_type_lt`: `u8::from(lhs < rhs)`. -/
def bar_type_lt (lhs rhs : BarType) : Nat :=
  if BarType.cmp lhs rhs = Ordering.lt then 1 else 0

/-- `bar_type_le`: `u8::from(lhs <= rhs)`. -/
def bar_type_le (lhs rhs : BarType) : Nat :=
  if BarType.cmp lhs rhs = Ordering.gt then 0 else 1

/-- `bar_type_gt`: `u8::from(lhs > rhs)`. -/
def bar_type_gt (lhs rhs : BarType) : Nat :=
  if BarType.cmp lhs rhs = Ordering.gt then 1 else 0

/-- `bar_type_ge`: `u8::from(lhs >= rhs)`. -/
def bar_type_ge (lhs rhs : BarType) : Nat :=
  if BarType.cmp lhs rhs = Ordering.lt then 0 else 1

/-- `bar_specification_new` from `bar_api.rs`: decodes the aggregation and
price-type discriminants with `from_repr`; the Rust `.expect` panic on an
invalid discriminant is embedded as `none`. -/
def bar_specification_new (step aggregation price_type : Nat) :
    Option BarSpecification :=
  match BarAggregation.from_repr aggregation with
  | none => none
  | some a =>
    match PriceType.from_repr price_type with
    | none => none
    | some p => some { step := step, aggregation := a, price_type := p }

/-- `bar_type_new` from `bar_api.rs`: decodes the aggregation-source
discriminant with `from_repr`; the Rust `.expect` panic is `none`. -/
def bar_type_new (instrument_id : InstrumentId) (spec : BarSpecification)
    (aggregation_source : Nat) : Option BarType :=
  match AggregationSource.from_repr aggregation_source with
  | none => none
  | some s =>
    some { instrument_id := instrument_id, spec := spec,
           aggregation_source := s }

/-! ## Market-data payloads

The payload types live in `nautilus_model::data` (outside `src/`); they
are modelled from the spec: every payload carries an `instrument_id`
(for `Bar`, derivable from `bar_type`) and the two nanosecond timestamps
`ts_event` and `ts_init`. -/

/-- Modelled from the spec: a `Bar` payload (OHLCV aggregate over a
window defined by a `BarType`). -/
structure Bar where
  bar_type : BarType
  o : Nat
  h : Nat
  l : Nat
  c : Nat
  v : Nat
  ts_event : Nat
  ts_init : Nat
  deriving DecidableEq

/-- Modelled from the spec: a `QuoteTick` payload. -/
structure QuoteTick where
  instrument_id : InstrumentId
  bid_price : Nat
  ask_price : Nat
  bid_size : Nat
  ask_size : Nat
  ts_event : Nat
  ts_init : Nat
  deriving DecidableEq

/-- Modelled from the spec: a `TradeTick` payload. -/
structure TradeTick where
  instrument_id : InstrumentId
  price : Nat
  size : Nat
  ts_event : Nat
  ts_init : Nat
  deriving DecidableEq

/-- Modelled from the spec: the record flag marking the last delta of a
batch. -/
def F_LAST : Nat := 128

/-- Modelled from the spec: a single order-book mutation
(`OrderBookDelta`); `flags` may carry `F_LAST`. -/
structure OrderBookDelta where
  instrument_id : InstrumentId
  flags : Nat
  ts_event : Nat
  ts_init : Nat
  deriving DecidableEq

/-- Modelled from the spec: an atomic batch of deltas
(`OrderBookDeltas`). -/
structure OrderBookDeltas where
  instrument_id : InstrumentId
  deltas : List OrderBookDelta
  ts_event : Nat
  ts_init : Nat
  deriving DecidableEq

/-- Modelled from the spec: a top-10 book snapshot (`OrderBookDepth10`). -/
structure OrderBookDepth10 where
  instrument_id : InstrumentId
  ts_event : Nat
  ts_init : Nat
  deriving DecidableEq

/-- Modelled from the spec: instrument reference data (`InstrumentAny`). -/
structure InstrumentAny where
  instrument_id : InstrumentId
  ts_event : Nat
  ts_init : Nat
  deriving DecidableEq

/-- The `Data` tagged union from `nautilus_model::data`, exactly the six
variants dispatched by `DataEngine::process`. -/
inductive Data where
  | delta (d : OrderBookDelta)
  | deltas (ds : OrderBookDeltas)
  | depth10 (d : OrderBookDepth10)
  | quote (q : QuoteTick)
  | trade (t : TradeTick)
  | bar (b : Bar)
  deriving DecidableEq

/-- Modelled from the spec: `DataType` is a type name together with an
optional ordered string-to-string metadata mapping. -/
structure DataType where
  type_name : String
  metadata : Option (List (String × String))
  deriving DecidableEq

/-- Modelled from the spec: a subscription action. -/
inductive Action where
  | subscribe
  | unsubscribe
  deriving DecidableEq

/-- Modelled from the spec: a `SubscriptionCommand`
(`nautilus_common::messages::data`, outside `src/`). -/
structure SubscriptionCommand where
  client_id : ClientId
  venue : Venue
  data_type : DataType
  action : Action
  correlation_id : Nat
  ts_init : Nat
  deriving DecidableEq

/-- Modelled from the spec: the typed payload vector carried by a
`DataResponse` (an `Arc<dyn Any>` in the source, so a payload not of one
of the four known vector types is representable — `custom`). -/
inductive ResponsePayload where
  | instruments (xs : List InstrumentAny)
  | quotes (xs : List QuoteTick)
  | trades (xs : List TradeTick)
  | bars (xs : List Bar)
  | custom
  deriving DecidableEq

/-- Modelled from the spec: a `DataResponse` carries a correlation id, a
`DataType` and a typed payload vector. -/
structure DataResponse where
  correlation_id : Nat
  data_type : DataType
  data : ResponsePayload
  deriving DecidableEq

/-- The opaque `&dyn Any` message received by `DataEngine::execute`:
either a `SubscriptionCommand` or something whose downcast fails. -/
inductive Message where
  | subscription (cmd : SubscriptionCommand)
  | other
  deriving DecidableEq

/-! ## Observable events

The message bus and the logger are external; each engine operation
returns the ordered trace of the externally observable actions it
performs, including cache inserts, so ordering claims are statable. -/

/-- One externally observable action of the engine. -/
inductive BusEvent where
  | publishDelta (instrument_id : InstrumentId) (delta : OrderBookDelta)
  | publishDeltas (instrument_id : InstrumentId) (deltas : OrderBookDeltas)
  | publishDepth (instrument_id : InstrumentId) (depth : OrderBookDepth10)
  | publishQuote (instrument_id : InstrumentId) (quote : QuoteTick)
  | publishTrade (instrument_id : InstrumentId) (trade : TradeTick)
  | publishBar (bar_type : BarType) (bar : Bar)
  | cacheInsertQuote (quote : QuoteTick) (ok : Bool)
  | cacheInsertTrade (trade : TradeTick) (ok : Bool)
  | cacheInsertBar (bar : Bar) (ok : Bool)
  | cacheInsertInstrument (instrument : InstrumentAny) (ok : Bool)
  | cacheBulkQuotes (quotes : List QuoteTick) (ok : Bool)
  | cacheBulkTrades (trades : List TradeTick) (ok : Bool)
  | cacheBulkBars (bars : List Bar) (ok : Bool)
  | sendResponse (resp : DataResponse)
  | logWarn (msg : String)
  | logError (msg : String)
  deriving DecidableEq

/-- Is the event a bar-topic publication? -/
def BusEvent.isPublishBar : BusEvent → Bool
  | .publishBar _ _ => true
  | _ => false

/-- Is the event a `send_response` republication? -/
def BusEvent.isSendResponse : BusEvent → Bool
  | .sendResponse _ => true
  | _ => false

/-! ## Association-list maps

`IndexMap` (insertion-ordered map) and the hash maps of the engine are
embedded as association lists with the `IndexMap` operations used by the
source: `insert` replaces in place or appends, `shift_remove` deletes
preserving the order of the rest, `get_mut` updates in place. -/

/-- `IndexMap::get`. -/
def alookup {κ β : Type} [DecidableEq κ] : List (κ × β) → κ → Option β
  | [], _ => none
  | (k2, v) :: rest, k => if k2 = k then some v else alookup rest k

/-- `IndexMap::insert`: replace the value at an existing key in place,
otherwise append at the end. -/
def ainsert {κ β : Type} [DecidableEq κ] : List (κ × β) → κ → β → List (κ × β)
  | [], k, v => [(k, v)]
  | (k2, v2) :: rest, k, v =>
    if k2 = k then (k2, v) :: rest else (k2, v2) :: ainsert rest k v

/-- `IndexMap::shift_remove`: delete the entry at the key, preserving the
order of the remaining entries. -/
def aremove {κ β : Type} [DecidableEq κ] : List (κ × β) → κ → List (κ × β)
  | [], _ => []
  | (k2, v) :: rest, k =>
    if k2 = k then aremove rest k else (k2, v) :: aremove rest k

/-- `IndexMap::get_mut` followed by writing the updated value back. -/
def aupdate {κ β : Type} [DecidableEq κ] : List (κ × β) → κ → β → List (κ × β)
  | [], _, _ => []
  | (k2, v2) :: rest, k, v =>
    if k2 = k then (k2, v) :: rest else (k2, v2) :: aupdate rest k v

/-- Keys of the map in insertion order. -/
def akeys {κ β : Type} (m : List (κ × β)) : List κ :=
  m.map (fun p => p.1)

/-! ## Cache facade -/

/-- Modelled from the spec: the cache storage facade
(`nautilus_common::cache`, outside `src/`), consumed as an insert/lookup
service; `bars` keeps the last bar per `BarType`.  `fail_next` injects a
storage error so that the fallible inserts of the source (which return
`anyhow::Result`) have both branches representable. -/
structure Cache where
  bars : List (BarType × Bar)
  quotes : List QuoteTick
  trades : List TradeTick
  instruments : List (InstrumentId × InstrumentAny)
  fail_next : Bool
  deriving DecidableEq

/-- Modelled from the spec: `Cache::bar` returns the last cached bar for
the bar type. -/
def Cache.bar (c : Cache) (bt : BarType) : Option Bar :=
  alookup c.bars bt

/-- Modelled from the spec: fallible `Cache::add_bar`. -/
def Cache.add_bar (c : Cache) (b : Bar) : Except String Cache :=
  if c.fail_next then Except.error "cache insert failed"
  else Except.ok { c with bars := ainsert c.bars b.bar_type b }

/-- Modelled from the spec: fallible `Cache::add_quote`. -/
def Cache.add_quote (c : Cache) (q : QuoteTick) : Except String Cache :=
  if c.fail_next then Except.error "cache insert failed"
  else Except.ok { c with quotes := q :: c.quotes }

/-- Modelled from the spec: fallible `Cache::add_trade`. -/
def Cache.add_trade (c : Cache) (t : TradeTick) : Except String Cache :=
  if c.fail_next then Except.error "cache insert failed"
  else Except.ok { c with trades := t :: c.trades }

/-- Modelled from the spec: fallible `Cache::add_instrument`. -/
def Cache.add_instrument (c : Cache) (i : InstrumentAny) : Except String Cache :=
  if c.fail_next then Except.error "cache insert failed"
  else Except.ok { c with instruments := ainsert c.instruments i.instrument_id i }

/-- Modelled from the spec: fallible bulk `Cache::add_quotes`. -/
def Cache.add_quotes (c : Cache) (qs : List QuoteTick) : Except String Cache :=
  if c.fail_next then Except.error "cache insert failed"
  else Except.ok { c with quotes := qs.reverse ++ c.quotes }

/-- Modelled from the spec: fallible bulk `Cache::add_trades`. -/
def Cache.add_trades (c : Cache) (ts : List TradeTick) : Except String Cache :=
  if c.fail_next then Except.error "cache insert failed"
  else Except.ok { c with trades := ts.reverse ++ c.trades }

/-- Modelled from the spec: fallible bulk `Cache::add_bars`. -/
def Cache.add_bars (c : Cache) (bs : List Bar) : Except String Cache :=
  if c.fail_next then Except.error "cache insert failed"
  else Except.ok { c with bars := bs.foldl (fun m b => ainsert m b.bar_type b) c.bars }

/-- The empty cache with no injected failure. -/
def Cache.empty : Cache :=
  { bars := [], quotes := [], trades := [], instruments := [], fail_next := false }

/-! ## Client adapter -/

/-- The nine subscription categories of the subscription index. -/
inductive SubCategory where
  | custom
  | instrument
  | deltas
  | snapshots
  | quote
  | trade
  | bar
  | status
  | close
  deriving DecidableEq

/-- Modelled from the spec: the subscription category addressed by a
`DataType`, keyed by its type name (the mapping the in-source tests
exercise: `OrderBookDelta` to the deltas set, `OrderBookDeltas` to the
snapshots set, and so on; unknown names go to the custom-data set). -/
def categoryOf (dt : DataType) : SubCategory :=
  if dt.type_name = "OrderBookDelta" then SubCategory.deltas
  else if dt.type_name = "OrderBookDeltas" then SubCategory.snapshots
  else if dt.type_name = "InstrumentAny" then SubCategory.instrument
  else if dt.type_name = "QuoteTick" then SubCategory.quote
  else if dt.type_name = "TradeTick" then SubCategory.trade
  else if dt.type_name = "Bar" then SubCategory.bar
  else if dt.type_name = "InstrumentStatus" then SubCategory.status
  else if dt.type_name = "InstrumentClose" then SubCategory.close
  else SubCategory.custom

/-- Set insertion for a subscription set (`HashSet::insert`). -/
def subsAdd (subs : List (SubCategory × DataType))
    (key : SubCategory × DataType) : List (SubCategory × DataType) :=
  if key ∈ subs then subs else subs ++ [key]

/-- Set removal for a subscription set (`HashSet::remove`). -/
def subsRemove : List (SubCategory × DataType) → SubCategory × DataType →
    List (SubCategory × DataType)
  | [], _ => []
  | x :: rest, key =>
    if x = key then subsRemove rest key else x :: subsRemove rest key

/-- Modelled from the spec: a `DataClientAdapter` holds its client id,
venue, and its subscription sets (the nine per-category sets are embedded
as one set of category-keyed entries). -/
structure DataClientAdapter where
  client_id : ClientId
  venue : Venue
  subs : List (SubCategory × DataType)
  deriving DecidableEq

/-- Modelled from the spec: `DataClientAdapter::execute` (the client
module is outside `src/`): a `Subscribe` adds the command's `data_type`
to the corresponding subscription set, an `Unsubscribe` removes it. -/
def DataClientAdapter.execute (a : DataClientAdapter)
    (cmd : SubscriptionCommand) : DataClientAdapter :=
  match cmd.action with
  | Action.subscribe =>
    { a with subs := subsAdd a.subs (categoryOf cmd.data_type, cmd.data_type) }
  | Action.unsubscribe =>
    { a with subs := subsRemove a.subs (categoryOf cmd.data_type, cmd.data_type) }

/-! ## Engine -/

/-- `DataEngineConfig` from `mod.rs`. -/
structure DataEngineConfig where
  time_bars_build_with_no_updates : Bool
  time_bars_timestamp_on_close : Bool
  time_bars_interval_type : String
  validate_data_sequence : Bool
  buffer_deltas : Bool
  external_clients : Option (List ClientId)
  debug : Bool
  deriving DecidableEq

/-- The `Default` impl for `DataEngineConfig`. -/
def DataEngineConfig.default : DataEngineConfig :=
  { time_bars_build_with_no_updates := true
    time_bars_timestamp_on_close := true
    time_bars_interval_type := "left_open"
    validate_data_sequence := false
    buffer_deltas := false
    external_clients := none
    debug := false }

/-- The `DataEngine` state from `mod.rs`: adapter registry, default
client, routing map, delta buffer and config, together with the shared
cache handle.  The clock, bar aggregators and synthetic feed maps are
never touched by the modelled operations and are omitted. -/
structure DataEngine where
  cache : Cache
  clients : List (ClientId × DataClientAdapter)
  default_client : Option DataClientAdapter
  routing_map : List (Venue × ClientId)
  buffered_deltas_map : List (InstrumentId × List OrderBookDelta)
  config : DataEngineConfig
  deriving DecidableEq

/-- `DataEngine::new` with no config given. -/
def DataEngine.empty : DataEngine :=
  { cache := Cache.empty, clients := [], default_client := none,
    routing_map := [], buffered_deltas_map := [],
    config := DataEngineConfig.default }

/-- `DataEngine::register_default_client`. -/
def DataEngine.register_default_client (e : DataEngine)
    (client : DataClientAdapter) : DataEngine :=
  { e with default_client := some client }

/-- `DataEngine::registed_clients` (name as in the source). -/
def DataEngine.registed_clients (e : DataEngine) : List ClientId :=
  akeys e.clients

/-- `DataEngine::register_client`: optionally set venue routing, then
insert the adapter under its client id. -/
def DataEngine.register_client (e : DataEngine) (client : DataClientAdapter)
    (routing : Option Venue) : DataEngine :=
  let e2 :=
    match routing with
    | some v => { e with routing_map := ainsert e.routing_map v client.client_id }
    | none => e
  { e2 with clients := ainsert e2.clients client.client_id client }

/-- `DataEngine::deregister_client`: `shift_remove` from the adapter
registry (nothing else is touched). -/
def DataEngine.deregister_client (e : DataEngine) (client_id : ClientId) :
    DataEngine :=
  { e with clients := aremove e.clients client_id }

/-- `DataEngine::get_client`: the adapter under `client_id` if present,
otherwise the adapter reached through the routing map entry for `venue`. -/
def DataEngine.get_client (e : DataEngine) (client_id : ClientId)
    (venue : Venue) : Option DataClientAdapter :=
  match alookup e.clients client_id with
  | some client => some client
  | none =>
    match alookup e.routing_map venue with
    | some cid => alookup e.clients cid
    | none => none

/-- `DataEngine::execute`: downcast to `SubscriptionCommand`; forward the
cloned command to the adapter registered under `cmd.client_id`, or log an
error and drop. -/
def DataEngine.execute (e : DataEngine) (msg : Message) :
    DataEngine × List BusEvent :=
  match msg with
  | Message.subscription cmd =>
    match alookup e.clients cmd.client_id with
    | some client =>
      ({ e with clients := aupdate e.clients cmd.client_id (client.execute cmd) },
       [])
    | none =>
      (e, [BusEvent.logError "Cannot handle command: no client found"])
  | Message.other =>
    (e, [BusEvent.logError "Invalid message type received"])

/-- `SubscriptionCommandHandler::handle`: forwards the bus message into
`DataEngine::execute`. -/
def subscriptionCommandHandlerHandle (e : DataEngine) (msg : Message) :
    DataEngine × List BusEvent :=
  DataEngine.execute e msg

/-! ## Data handlers -/

/-- `DataEngine::handle_delta` as written in the source: the buffering
and book management are `TODO` comments, so the delta is always published
individually on the delta topic and the delta buffer is never touched. -/
def DataEngine.handle_delta (e : DataEngine) (delta : OrderBookDelta) :
    DataEngine × List BusEvent :=
  (e, [BusEvent.publishDelta delta.instrument_id delta])

/-- `DataEngine::handle_deltas`: publish the batch on the deltas topic. -/
def DataEngine.handle_deltas (e : DataEngine) (deltas : OrderBookDeltas) :
    DataEngine × List BusEvent :=
  (e, [BusEvent.publishDeltas deltas.instrument_id deltas])

/-- `DataEngine::handle_depth10`: publish the snapshot on the depth
topic. -/
def DataEngine.handle_depth10 (e : DataEngine) (depth : OrderBookDepth10) :
    DataEngine × List BusEvent :=
  (e, [BusEvent.publishDepth depth.instrument_id depth])

/-- `DataEngine::handle_quote`: insert into the cache (log the error and
continue on failure), then publish on the per-instrument quote topic. -/
def DataEngine.handle_quote (e : DataEngine) (quote : QuoteTick) :
    DataEngine × List BusEvent :=
  match e.cache.add_quote quote with
  | Except.ok c =>
    ({ e with cache := c },
     [BusEvent.cacheInsertQuote quote true,
      BusEvent.publishQuote quote.instrument_id quote])
  | Except.error m =>
    (e,
     [BusEvent.cacheInsertQuote quote false, BusEvent.logError m,
      BusEvent.publishQuote quote.instrument_id quote])

/-- `DataEngine::handle_trade`: insert into the cache (log the error and
continue on failure), then publish on the per-instrument trade topic. -/
def DataEngine.handle_trade (e : DataEngine) (trade : TradeTick) :
    DataEngine × List BusEvent :=
  match e.cache.add_trade trade with
  | Except.ok c =>
    ({ e with cache := c },
     [BusEvent.cacheInsertTrade trade true,
      BusEvent.publishTrade trade.instrument_id trade])
  | Except.error m =>
    (e,
     [BusEvent.cacheInsertTrade trade false, BusEvent.logError m,
      BusEvent.publishTrade trade.instrument_id trade])

/-- `DataEngine::handle_bar`: when `validate_data_sequence` is set and a
last bar of the same bar type is cached, drop (with a warning) a bar
whose `ts_event` or `ts_init` regresses; otherwise insert into the cache
(log the error and continue on failure) and publish on the bar-type
topic. -/
def DataEngine.handle_bar (e : DataEngine) (bar : Bar) :
    DataEngine × List BusEvent :=
  let insert_and_publish : DataEngine × List BusEvent :=
    match e.cache.add_bar bar with
    | Except.ok c =>
      ({ e with cache := c },
       [BusEvent.cacheInsertBar bar true,
        BusEvent.publishBar bar.bar_type bar])
    | Except.error m =>
      (e,
       [BusEvent.cacheInsertBar bar false, BusEvent.logError m,
        BusEvent.publishBar bar.bar_type bar])
  if e.config.validate_data_sequence then
    match e.cache.bar bar.bar_type with
    | some last_bar =>
      if bar.ts_event < last_bar.ts_event then
        (e, [BusEvent.logWarn "Bar was prior to last bar ts_event"])
      else if bar.ts_init < last_bar.ts_init then
        (e, [BusEvent.logWarn "Bar was prior to last bar ts_init"])
      else insert_and_publish
    | none => insert_and_publish
  else insert_and_publish

/-- `DataEngine::process`: single dispatch on the `Data` tag. -/
def DataEngine.process (e : DataEngine) (data : Data) :
    DataEngine × List BusEvent :=
  match data with
  | Data.delta d => e.handle_delta d
  | Data.deltas ds => e.handle_deltas ds
  | Data.depth10 d => e.handle_depth10 d
  | Data.quote q => e.handle_quote q
  | Data.trade t => e.handle_trade t
  | Data.bar b => e.handle_bar b

/-- Processing of a sequence of inbound events in delivery order,
concatenating the traces. -/
def DataEngine.processAll (e : DataEngine) (ds : List Data) :
    DataEngine × List BusEvent :=
  match ds with
  | [] => (e, [])
  | d :: rest =>
    let r := e.process d
    let r2 := r.1.processAll rest
    (r2.1, r.2 ++ r2.2)

/-! ## Response handlers -/

/-- `DataEngine::handle_instruments`: per-item cache inserts, logging and
continuing on each failure. -/
def handle_instruments : Cache → List InstrumentAny → Cache × List BusEvent
  | c, [] => (c, [])
  | c, i :: rest =>
    match c.add_instrument i with
    | Except.ok c2 =>
      let r := handle_instruments c2 rest
      (r.1, BusEvent.cacheInsertInstrument i true :: r.2)
    | Except.error m =>
      let r := handle_instruments c rest
      (r.1, BusEvent.cacheInsertInstrument i false :: BusEvent.logError m :: r.2)

/-- `DataEngine::handle_quotes`: bulk cache insert, logging on failure. -/
def handle_quotes (c : Cache) (xs : List QuoteTick) : Cache × List BusEvent :=
  match c.add_quotes xs with
  | Except.ok c2 => (c2, [BusEvent.cacheBulkQuotes xs true])
  | Except.error m => (c, [BusEvent.cacheBulkQuotes xs false, BusEvent.logError m])

/-- `DataEngine::handle_trades`: bulk cache insert, logging on failure. -/
def handle_trades (c : Cache) (xs : List TradeTick) : Cache × List BusEvent :=
  match c.add_trades xs with
  | Except.ok c2 => (c2, [BusEvent.cacheBulkTrades xs true])
  | Except.error m => (c, [BusEvent.cacheBulkTrades xs false, BusEvent.logError m])

/-- `DataEngine::handle_bars`: bulk cache insert, logging on failure. -/
def handle_bars (c : Cache) (xs : List Bar) : Cache × List BusEvent :=
  match c.add_bars xs with
  | Except.ok c2 => (c2, [BusEvent.cacheBulkBars xs true])
  | Except.error m => (c, [BusEvent.cacheBulkBars xs false, BusEvent.logError m])

/-- Is the type name one of the four the response router decodes? -/
def isKnownTypeName (s : String) : Bool :=
  s = "InstrumentAny" || s = "QuoteTick" || s = "TradeTick" || s = "Bar"

/-- Does the response's payload downcast to the vector type its
`type_name` declares?  (An unknown type name never downcasts, so it is
always well typed.) -/
def respWellTyped (resp : DataResponse) : Bool :=
  if resp.data_type.type_name = "InstrumentAny" then
    match resp.data with
    | ResponsePayload.instruments _ => true
    | _ => false
  else if resp.data_type.type_name = "QuoteTick" then
    match resp.data with
    | ResponsePayload.quotes _ => true
    | _ => false
  else if resp.data_type.type_name = "TradeTick" then
    match resp.data with
    | ResponsePayload.trades _ => true
    | _ => false
  else if resp.data_type.type_name = "Bar" then
    match resp.data with
    | ResponsePayload.bars _ => true
    | _ => false
  else true

/-- `DataEngine::response`: decode the payload by `data_type.type_name`,
bulk-insert into the cache for the four known names (a failing downcast
is the source's `.expect` panic, embedded as `none`), then always
republish the response with `send_response`. -/
def DataEngine.response (e : DataEngine) (resp : DataResponse) :
    Option (Cache × List BusEvent) :=
  if resp.data_type.type_name = "InstrumentAny" then
    match resp.data with
    | ResponsePayload.instruments xs =>
      let r := handle_instruments e.cache xs
      some (r.1, r.2 ++ [BusEvent.sendResponse resp])
    | _ => none
  else if resp.data_type.type_name = "QuoteTick" then
    match resp.data with
    | ResponsePayload.quotes xs =>
      let r := handle_quotes e.cache xs
      some (r.1, r.2 ++ [BusEvent.sendResponse resp])
    | _ => none
  else if resp.data_type.type_name = "TradeTick" then
    match resp.data with
    | ResponsePayload.trades xs =>
      let r := handle_trades e.cache xs
      some (r.1, r.2 ++ [BusEvent.sendResponse resp])
    | _ => none
  else if resp.data_type.type_name = "Bar" then
    match resp.data with
    | ResponsePayload.bars xs =>
      let r := handle_bars e.cache xs
      some (r.1, r.2 ++ [BusEvent.sendResponse resp])
    | _ => none
  else
    some (e.cache, [BusEvent.sendResponse resp])

/-! ## Concrete inputs used by witnesses and counterexamples -/

/-- Exactly one of three 0/1 flags is set. -/
def exactlyOne (x y z : Nat) : Prop :=
  (x = 1 ∧ y = 0 ∧ z = 0) ∨ (x = 0 ∧ y = 1 ∧ z = 0) ∨ (x = 0 ∧ y = 0 ∧ z = 1)

/-- A first, non-terminal delta of a batch. -/
def c1_delta1 : OrderBookDelta :=
  { instrument_id := ⟨1⟩, flags := 0, ts_event := 1, ts_init := 1 }

/-- A terminal delta carrying `F_LAST`. -/
def c1_delta2 : OrderBookDelta :=
  { instrument_id := ⟨1⟩, flags := F_LAST, ts_event := 2, ts_init := 2 }

/-- An engine with `buffer_deltas` enabled. -/
def c1_engine : DataEngine :=
  { DataEngine.empty with
    config := { DataEngineConfig.default with buffer_deltas := true } }

/-- A concrete bar type. -/
def c2_bar_type : BarType :=
  { instrument_id := ⟨1⟩,
    spec := { step := 1, aggregation := BarAggregation.minute,
              price_type := PriceType.last },
    aggregation_source := AggregationSource.internal }

/-- The last cached bar, at time 100. -/
def c2_last_bar : Bar :=
  { bar_type := c2_bar_type, o := 0, h := 0, l := 0, c := 0, v := 0,
    ts_event := 100, ts_init := 100 }

/-- A regressing bar, at event time 50. -/
def c2_stale_bar : Bar :=
  { c2_last_bar with ts_event := 50, ts_init := 150 }

/-- An engine with sequence validation enabled and `c2_last_bar` cached. -/
def c2_engine : DataEngine :=
  { DataEngine.empty with
    cache := { Cache.empty with bars := [(c2_bar_type, c2_last_bar)] },
    config := { DataEngineConfig.default with validate_data_sequence := true } }

/-- An adapter registered with venue routing. -/
def c3_adapter : DataClientAdapter :=
  { client_id := ⟨1⟩, venue := ⟨1⟩, subs := [] }

/-- Register with routing for venue 1, then deregister the client. -/
def c3_engine_after : DataEngine :=
  DataEngine.deregister_client
    (DataEngine.register_client DataEngine.empty c3_adapter (some ⟨1⟩)) ⟨1⟩

/-- A default client. -/
def c4_default_adapter : DataClientAdapter :=
  { client_id := ⟨9⟩, venue := ⟨9⟩, subs := [] }

/-- An engine whose only client is the default client. -/
def c4_engine : DataEngine :=
  DataEngine.register_default_client DataEngine.empty c4_default_adapter

/-- A well-typed quote response. -/
def c5_resp : DataResponse :=
  { correlation_id := 7,
    data_type := { type_name := "QuoteTick", metadata := none },
    data := ResponsePayload.quotes
      [{ instrument_id := ⟨1⟩, bid_price := 1, ask_price := 2, bid_size := 1,
         ask_size := 1, ts_event := 1, ts_init := 1 }] }

/-- A response whose declared type name does not match its payload. -/
def c5_bad_resp : DataResponse :=
  { correlation_id := 8,
    data_type := { type_name := "QuoteTick", metadata := none },
    data := ResponsePayload.bars [] }

/-- A data type for subscription commands. -/
def c6_data_type : DataType :=
  { type_name := "QuoteTick", metadata := none }

/-- An adapter currently subscribed to `c6_data_type`. -/
def c6_adapter : DataClientAdapter :=
  { client_id := ⟨1⟩, venue := ⟨1⟩,
    subs := [(SubCategory.quote, c6_data_type)] }

/-- The same adapter with the subscription removed. -/
def c6_empty_adapter : DataClientAdapter :=
  { client_id := ⟨1⟩, venue := ⟨1⟩, subs := [] }

/-- An engine holding `c6_adapter`. -/
def c6_engine : DataEngine :=
  { DataEngine.empty with clients := [(⟨1⟩, c6_adapter)] }

/-- An unsubscribe command addressed to client 1. -/
def c6_unsub_cmd : SubscriptionCommand :=
  { client_id := ⟨1⟩, venue := ⟨1⟩, data_type := c6_data_type,
    action := Action.unsubscribe, correlation_id := 1, ts_init := 1 }

/-- A subscribe command addressed to client 1. -/
def c6_sub_cmd : SubscriptionCommand :=
  { c6_unsub_cmd with action := Action.subscribe, correlation_id := 2 }

/-- An engine holding an adapter with no subscriptions. -/
def c6_engine_clean : DataEngine :=
  { DataEngine.empty with clients := [(⟨1⟩, c6_empty_adapter)] }

/-- A registered adapter. -/
def c8_adapter_a : DataClientAdapter :=
  { client_id := ⟨1⟩, venue := ⟨1⟩, subs := [] }

/-- An adapter whose client id is not registered in `c8_engine`. -/
def c8_adapter_b : DataClientAdapter :=
  { client_id := ⟨2⟩, venue := ⟨2⟩, subs := [] }

/-- An engine holding only `c8_adapter_a`. -/
def c8_engine : DataEngine :=
  DataEngine.register_client DataEngine.empty c8_adapter_a none

/-! ## Association-list lemmas -/

theorem alookup_none_aremove {κ β : Type} [DecidableEq κ]
    (m : List (κ × β)) (k : κ) (h : alookup m k = none) : aremove m k = m := by
  induction m with
  | nil => rfl
  | cons p rest ih =>
    obtain ⟨k2, v⟩ := p
    by_cases hk : k2 = k
    · simp [alookup, hk] at h
    · simp only [alookup, hk, if_false] at h
      simp [aremove, hk, ih h]

theorem alookup_none_ainsert {κ β : Type} [DecidableEq κ]
    (m : List (κ × β)) (k : κ) (v : β) (h : alookup m k = none) :
    ainsert m k v = m ++ [(k, v)] := by
  induction m with
  | nil => rfl
  | cons p rest ih =>
    obtain ⟨k2, v2⟩ := p
    by_cases hk : k2 = k
    · simp [alookup, hk] at h
    · simp only [alookup, hk, if_false] at h
      simp [ainsert, hk, ih h]

theorem aremove_append {κ β : Type} [DecidableEq κ]
    (xs ys : List (κ × β)) (k : κ) :
    aremove (xs ++ ys) k = aremove xs k ++ aremove ys k := by
  induction xs with
  | nil => rfl
  | cons p rest ih =>
    obtain ⟨k2, v⟩ := p
    by_cases hk : k2 = k <;> simp [aremove, hk, ih]

theorem alookup_ainsert_self {κ β : Type} [DecidableEq κ]
    (m : List (κ × β)) (k : κ) (v : β) :
    alookup (ainsert m k v) k = some v := by
  induction m with
  | nil => simp [ainsert, alookup]
  | cons p rest ih =>
    obtain ⟨k2, v2⟩ := p
    by_cases hk : k2 = k
    · simp [ainsert, alookup, hk]
    · simp [ainsert, alookup, hk, ih]

theorem alookup_aupdate_self {κ β : Type} [DecidableEq κ]
    (m : List (κ × β)) (k : κ) (v w : β) (h : alookup m k = some w) :
    alookup (aupdate m k v) k = some v := by
  induction m with
  | nil => simp [alookup] at h
  | cons p rest ih =>
    obtain ⟨k2, v2⟩ := p
    by_cases hk : k2 = k
    · simp [aupdate, alookup, hk]
    · simp only [alookup, hk, if_false] at h
      simp [aupdate, alookup, hk, ih h]

theorem alookup_aupdate_ne {κ β : Type} [DecidableEq κ]
    (m : List (κ × β)) (k k2 : κ) (v : β) (h : k2 ≠ k) :
    alookup (aupdate m k v) k2 = alookup m k2 := by
  induction m with
  | nil => rfl
  | cons p rest ih =>
    obtain ⟨k3, v3⟩ := p
    by_cases hk : k3 = k
    · have h2 : ¬(k3 = k2) := fun hh => h (hh ▸ hk)
      have h3 : ¬(k = k2) := fun hh => h hh.symm
      simp [aupdate, alookup, hk, h2, h3]
    · simp [aupdate, alookup, hk, ih]

theorem subsRemove_not_mem (subs : List (SubCategory × DataType))
    (key : SubCategory × DataType) : key ∉ subsRemove subs key := by
  induction subs with
  | nil => simp [subsRemove]
  | cons x rest ih =>
    by_cases hx : x = key
    · simpa [subsRemove, hx] using ih
    · simp [subsRemove, hx, ih, Ne.symm hx]

/-! ## Ordering lemmas for the comparison API -/

theorem ncmp_eq_iff (a b : Nat) : ncmp a b = Ordering.eq ↔ a = b := by
  unfold ncmp
  split_ifs with h1 h2
  · simp_all
    omega
  · simp_all
  · simp_all

theorem othen_eq_iff (o1 o2 : Ordering) :
    othen o1 o2 = Ordering.eq ↔ (o1 = Ordering.eq ∧ o2 = Ordering.eq) := by
  cases o1 <;> simp [othen]

theorem barAggregation_toNat_inj :
    ∀ a b : BarAggregation, a.toNat = b.toNat → a = b := by decide

theorem priceType_toNat_inj :
    ∀ a b : PriceType, a.toNat = b.toNat → a = b := by decide

theorem aggregationSource_toNat_inj :
    ∀ a b : AggregationSource, a.toNat = b.toNat → a = b := by decide

theorem barSpecification_cmp_eq_iff (a b : BarSpecification) :
    BarSpecification.cmp a b = Ordering.eq ↔ a = b := by
  obtain ⟨s1, a1, p1⟩ := a
  obtain ⟨s2, a2, p2⟩ := b
  simp only [BarSpecification.cmp, BarAggregation.cmp, PriceType.cmp,
    othen_eq_iff, ncmp_eq_iff, BarSpecification.mk.injEq]
  constructor
  · rintro ⟨h1, h2, h3⟩
    exact ⟨h1, barAggregation_toNat_inj _ _ h2, priceType_toNat_inj _ _ h3⟩
  · rintro ⟨h1, h2, h3⟩
    subst h1; subst h2; subst h3
    exact ⟨rfl, rfl, rfl⟩

theorem barType_cmp_eq_iff (a b : BarType) :
    BarType.cmp a b = Ordering.eq ↔ a = b := by
  obtain ⟨⟨i1⟩, s1, g1⟩ := a
  obtain ⟨⟨i2⟩, s2, g2⟩ := b
  simp only [BarType.cmp, InstrumentId.cmp, AggregationSource.cmp,
    othen_eq_iff, ncmp_eq_iff, barSpecification_cmp_eq_iff,
    BarType.mk.injEq, InstrumentId.mk.injEq]
  constructor
  · rintro ⟨h1, h2, h3⟩
    exact ⟨h1, h2, aggregationSource_toNat_inj _ _ h3⟩
  · rintro ⟨h1, h2, h3⟩
    subst h3
    exact ⟨h1, h2, rfl⟩

theorem comparison_props {α : Type} [DecidableEq α] (x y : α) (c : Ordering)
    (heq : x = y ↔ c = Ordering.eq) :
    ((if x = y then 1 else 0) = 1 ↔ x = y) ∧
    exactlyOne (if c = Ordering.lt then 1 else 0) (if x = y then 1 else 0)
      (if c = Ordering.gt then 1 else 0) ∧
    ((if c = Ordering.gt then 0 else 1) = 1 ↔
      ((if c = Ordering.lt then 1 else 0) = 1 ∨ (if x = y then 1 else 0) = 1)) ∧
    ((if c = Ordering.lt then 0 else 1) = 1 ↔
      ((if c = Ordering.gt then 1 else 0) = 1 ∨ (if x = y then 1 else 0) = 1)) := by
  by_cases hxy : x = y
  · have hc : c = Ordering.eq := heq.mp hxy
    subst hc
    simp [hxy, exactlyOne]
  · have hc : c ≠ Ordering.eq := fun h => hxy (heq.mpr h)
    cases c
    · simp [hxy, exactlyOne]
    · exact absurd rfl hc
    · simp [hxy, exactlyOne]

/-- C9: the C-ABI comparison functions on `BarType` and
`BarSpecification` realise value equality and a total order: equality
returns 1 exactly on equal values, exactly one of lt/eq/gt returns 1,
and le (resp. ge) returns 1 exactly when lt (resp. gt) or eq does. -/
theorem c9_comparison_functions_total_order (a b : BarType)
    (s t : BarSpecification) :
    (bar_type_eq a b = 1 ↔ a = b) ∧
    exactlyOne (bar_type_lt a b) (bar_type_eq a b) (bar_type_gt a b) ∧
    (bar_type_le a b = 1 ↔ (bar_type_lt a b = 1 ∨ bar_type_eq a b = 1)) ∧
    (bar_type_ge a b = 1 ↔ (bar_type_gt a b = 1 ∨ bar_type_eq a b = 1)) ∧
    (bar_specification_eq s t = 1 ↔ s = t) ∧
    exactlyOne (bar_specification_lt s t) (bar_specification_eq s t)
      (bar_specification_gt s t) ∧
    (bar_specification_le s t = 1 ↔
      (bar_specification_lt s t = 1 ∨ bar_specification_eq s t = 1)) ∧
    (bar_specification_ge s t = 1 ↔
      (bar_specification_gt s t = 1 ∨ bar_specification_eq s t = 1)) := by
  have h1 := comparison_props a b (BarType.cmp a b) (barType_cmp_eq_iff a b).symm
  have h2 := comparison_props s t (BarSpecification.cmp s t)
    (barSpecification_cmp_eq_iff s t).symm
  exact ⟨h1.1, h1.2.1, h1.2.2.1, h1.2.2.2, h2.1, h2.2.1, h2.2.2.1, h2.2.2.2⟩

/-- C10: `bar_specification_new` and `bar_type_new` are partial at the
public interface: they fail (the embedded panic, `none`) exactly when a
discriminant byte is invalid, and under the precondition that every byte
is a valid discriminant they return the record whose fields are exactly
the decoded arguments. -/
theorem c10_constructor_decoding (step agg pt : Nat) (iid : InstrumentId)
    (sp : BarSpecification) (src : Nat) :
    (bar_specification_new step agg pt = none ↔
      (BarAggregation.from_repr agg = none ∨ PriceType.from_repr pt = none)) ∧
    (∀ a p, BarAggregation.from_repr agg = some a →
      PriceType.from_repr pt = some p →
      bar_specification_new step agg pt =
        some { step := step, aggregation := a, price_type := p }) ∧
    (bar_type_new iid sp src = none ↔
      AggregationSource.from_repr src = none) ∧
    (∀ s2, AggregationSource.from_repr src = some s2 →
      bar_type_new iid sp src =
        some { instrument_id := iid, spec := sp, aggregation_source := s2 }) := by
  refine ⟨?_, ?_, ?_, ?_⟩
  · cases hA : BarAggregation.from_repr agg <;>
      cases hP : PriceType.from_repr pt <;>
        simp [bar_specification_new, hA, hP]
  · intro a p ha hp
    simp [bar_specification_new, ha, hp]
  · cases hS : AggregationSource.from_repr src <;> simp [bar_type_new, hS]
  · intro s2 hs
    simp [bar_type_new, hs]

/-- Witness for C10 at concrete discriminants. -/
theorem c10_constructor_decoding_witness :
    BarAggregation.from_repr 1 = some BarAggregation.tick ∧
    PriceType.from_repr 2 = some PriceType.ask ∧
    AggregationSource.from_repr 2 = some AggregationSource.internal ∧
    bar_specification_new 5 1 2 =
      some { step := 5, aggregation := BarAggregation.tick,
             price_type := PriceType.ask } ∧
    bar_type_new ⟨3⟩
      { step := 5, aggregation := BarAggregation.tick,
        price_type := PriceType.ask } 2 =
      some { instrument_id := ⟨3⟩,
             spec := { step := 5, aggregation := BarAggregation.tick,
                       price_type := PriceType.ask },
             aggregation_source := AggregationSource.internal } := by
  refine ⟨rfl, rfl, rfl, ?_, ?_⟩
  · exact (c10_constructor_decoding 5 1 2 ⟨3⟩
      { step := 5, aggregation := BarAggregation.tick,
        price_type := PriceType.ask } 2).2.1 _ _ rfl rfl
  · exact (c10_constructor_decoding 5 1 2 ⟨3⟩
      { step := 5, aggregation := BarAggregation.tick,
        price_type := PriceType.ask } 2).2.2.2 _ rfl

/-! ## Trace-shape lemmas for the response handlers -/

theorem subsAdd_mem (subs : List (SubCategory × DataType))
    (key : SubCategory × DataType) : key ∈ subsAdd subs key := by
  by_cases hm : key ∈ subs <;> simp [subsAdd, hm]

theorem handle_instruments_no_send :
    ∀ (xs : List InstrumentAny) (c : Cache),
      ∀ ev ∈ (handle_instruments c xs).2, ev.isSendResponse = false := by
  intro xs
  induction xs with
  | nil =>
    intro c ev hev
    simp [handle_instruments] at hev
  | cons i rest ih =>
    intro c ev hev
    by_cases hf : c.fail_next
    · simp [handle_instruments, Cache.add_instrument, hf] at hev
      rcases hev with h | hev2
      · subst h; rfl
      · rcases hev2 with h | h
        · subst h; rfl
        · exact ih c ev h
    · simp [handle_instruments, Cache.add_instrument, hf] at hev
      rcases hev with h | h
      · subst h; rfl
      · exact ih _ ev h

theorem handle_quotes_no_send (c : Cache) (xs : List QuoteTick) :
    ∀ ev ∈ (handle_quotes c xs).2, ev.isSendResponse = false := by
  intro ev hev
  by_cases hf : c.fail_next
  · simp [handle_quotes, Cache.add_quotes, hf] at hev
    rcases hev with h | h
    · subst h; rfl
    · subst h; rfl
  · simp [handle_quotes, Cache.add_quotes, hf] at hev
    subst hev; rfl

theorem handle_trades_no_send (c : Cache) (xs : List TradeTick) :
    ∀ ev ∈ (handle_trades c xs).2, ev.isSendResponse = false := by
  intro ev hev
  by_cases hf : c.fail_next
  · simp [handle_trades, Cache.add_trades, hf] at hev
    rcases hev with h | h
    · subst h; rfl
    · subst h; rfl
  · simp [handle_trades, Cache.add_trades, hf] at hev
    subst hev; rfl

theorem handle_bars_no_send (c : Cache) (xs : List Bar) :
    ∀ ev ∈ (handle_bars c xs).2, ev.isSendResponse = false := by
  intro ev hev
  by_cases hf : c.fail_next
  · simp [handle_bars, Cache.add_bars, hf] at hev
    rcases hev with h | h
    · subst h; rfl
    · subst h; rfl
  · simp [handle_bars, Cache.add_bars, hf] at hev
    subst hev; rfl

/-! ## Claim theorems for the data engine -/

/-- C1 (code evaluated at the failing input): with `buffer_deltas`
enabled, a delta sequence whose final delta carries `F_LAST` is published
as two individual delta events on the delta topic; no `Deltas` event is
published and the engine state, including the delta buffer, is untouched
— the buffering described by the spec is an unimplemented `TODO` in
`handle_delta`. -/
theorem c1_delta_buffering_unimplemented :
    (c1_engine.processAll [Data.delta c1_delta1, Data.delta c1_delta2]).2 =
      [BusEvent.publishDelta ⟨1⟩ c1_delta1,
       BusEvent.publishDelta ⟨1⟩ c1_delta2] ∧
    (c1_engine.processAll [Data.delta c1_delta1, Data.delta c1_delta2]).1 =
      c1_engine ∧
    ∀ i ds, BusEvent.publishDeltas i ds ∉
      (c1_engine.processAll [Data.delta c1_delta1, Data.delta c1_delta2]).2 := by
  refine ⟨rfl, rfl, ?_⟩
  intro i ds
  simp [DataEngine.processAll, DataEngine.process, DataEngine.handle_delta]

/-- C2: with `validate_data_sequence` enabled and a last bar of the same
bar type cached, a bar whose `ts_event` or `ts_init` regresses is dropped
— the engine is unchanged, no cache insert happens and no bar-topic
publish occurs; otherwise the bar is inserted into the cache (it becomes
the cached last bar when the cache does not fail) and is published on the
bar-type topic. -/
theorem c2_handle_bar_sequence_validation (e : DataEngine) (b last : Bar)
    (hv : e.config.validate_data_sequence = true)
    (hl : e.cache.bar b.bar_type = some last) :
    ((b.ts_event < last.ts_event ∨ b.ts_init < last.ts_init) →
      (e.handle_bar b).1 = e ∧
      ∀ ev ∈ (e.handle_bar b).2, ev.isPublishBar = false ∧
        ∀ b2 ok, ev ≠ BusEvent.cacheInsertBar b2 ok) ∧
    (¬(b.ts_event < last.ts_event ∨ b.ts_init < last.ts_init) →
      BusEvent.publishBar b.bar_type b ∈ (e.handle_bar b).2 ∧
      (e.cache.fail_next = false →
        ((e.handle_bar b).1).cache.bar b.bar_type = some b)) := by
  constructor
  · intro hdrop
    by_cases h1 : b.ts_event < last.ts_event
    · have hres : e.handle_bar b =
          (e, [BusEvent.logWarn "Bar was prior to last bar ts_event"]) := by
        simp [DataEngine.handle_bar, hv, hl, h1]
      rw [hres]
      refine ⟨rfl, ?_⟩
      intro ev hev
      simp only [List.mem_cons, List.not_mem_nil, or_false] at hev
      subst hev
      exact ⟨rfl, fun b2 ok => by simp⟩
    · have h2 : b.ts_init < last.ts_init := by tauto
      have hres : e.handle_bar b =
          (e, [BusEvent.logWarn "Bar was prior to last bar ts_init"]) := by
        simp [DataEngine.handle_bar, hv, hl, h1, h2]
      rw [hres]
      refine ⟨rfl, ?_⟩
      intro ev hev
      simp only [List.mem_cons, List.not_mem_nil, or_false] at hev
      subst hev
      exact ⟨rfl, fun b2 ok => by simp⟩
  · intro hkeep
    push_neg at hkeep
    obtain ⟨h1, h2⟩ := hkeep
    have h1n : ¬ b.ts_event < last.ts_event := Nat.not_lt.mpr h1
    have h2n : ¬ b.ts_init < last.ts_init := Nat.not_lt.mpr h2
    by_cases hf : e.cache.fail_next
    · have hres : e.handle_bar b =
          (e, [BusEvent.cacheInsertBar b false,
               BusEvent.logError "cache insert failed",
               BusEvent.publishBar b.bar_type b]) := by
        simp [DataEngine.handle_bar, hv, hl, h1n, h2n, Cache.add_bar, hf]
      rw [hres]
      refine ⟨by simp, ?_⟩
      intro hfn
      rw [hf] at hfn
      cases hfn
    · have hres : e.handle_bar b =
          ({ e with cache :=
              { e.cache with bars := ainsert e.cache.bars b.bar_type b } },
           [BusEvent.cacheInsertBar b true,
            BusEvent.publishBar b.bar_type b]) := by
        simp [DataEngine.handle_bar, hv, hl, h1n, h2n, Cache.add_bar, hf]
      rw [hres]
      refine ⟨by simp, ?_⟩
      intro _
      exact alookup_ainsert_self _ _ _

/-- Witness for C2: the drop branch at a concrete stale bar. -/
theorem c2_handle_bar_sequence_validation_witness :
    (c2_engine.handle_bar c2_stale_bar).1 = c2_engine ∧
    ∀ ev ∈ (c2_engine.handle_bar c2_stale_bar).2, ev.isPublishBar = false ∧
      ∀ b2 ok, ev ≠ BusEvent.cacheInsertBar b2 ok :=
  (c2_handle_bar_sequence_validation c2_engine c2_stale_bar c2_last_bar rfl
    (by decide)).1 (Or.inl (by decide))

/-- C3 counterexample: register adapter 1 with routing for venue 1, then
deregister client 1: the routing entry remains and points at a client id
with no registered adapter, so deregistration does not remove routing
entries and the routing-map invariant fails. -/
theorem c3_counterexample_dangling_routing_entry :
    c3_engine_after.routing_map = [(⟨1⟩, ⟨1⟩)] ∧
    alookup c3_engine_after.clients (⟨1⟩ : ClientId) = none ∧
    ¬(∀ p ∈ c3_engine_after.routing_map,
      ∃ a, alookup c3_engine_after.clients p.2 = some a) := by
  refine ⟨rfl, rfl, ?_⟩
  intro hall
  obtain ⟨a, ha⟩ := hall (⟨1⟩, ⟨1⟩) (by decide)
  have hn : alookup c3_engine_after.clients (⟨1⟩ : ClientId) = none := rfl
  rw [hn] at ha
  exact Option.noConfusion ha

/-- C3 amended: `deregister_client` removes only the adapter entry under
the client id; the routing map and every other engine field are left
unchanged, so routing entries pointing at the removed client persist. -/
theorem c3_deregister_removes_only_adapter (e : DataEngine) (cid : ClientId) :
    (e.deregister_client cid).clients = aremove e.clients cid ∧
    (e.deregister_client cid).routing_map = e.routing_map ∧
    (e.deregister_client cid).default_client = e.default_client ∧
    (e.deregister_client cid).cache = e.cache ∧
    (e.deregister_client cid).buffered_deltas_map = e.buffered_deltas_map ∧
    (e.deregister_client cid).config = e.config :=
  ⟨rfl, rfl, rfl, rfl, rfl, rfl⟩

/-- C4 (code evaluated at the failing input): with a default client set,
an unregistered client id and an unrouted venue, `get_client` returns
none — the source never consults `default_client`, although
`register_default_client`'s documentation says that client receives
messages when venue routing cannot be found. -/
theorem c4_get_client_ignores_default :
    c4_engine.default_client = some c4_default_adapter ∧
    c4_engine.get_client ⟨7⟩ ⟨3⟩ = none :=
  ⟨rfl, rfl⟩

/-- C5 counterexample: a response whose `type_name` declares `QuoteTick`
but whose payload is a bar vector makes the `.expect` downcast panic
(embedded `none`), so this response is not republished — the claim's
universal republication fails. -/
theorem c5_counterexample_mismatched_payload :
    DataEngine.response DataEngine.empty c5_bad_resp = none := rfl

/-- C5 amended: for a response whose payload matches its declared
`type_name` (always the case for unknown names), `response` republishes
the response via `send_response` as the final event, every earlier event
is a cache write or log (never a republication), and an unknown
`type_name` performs no cache side-effect at all. -/
theorem c5_response_republishes (e : DataEngine) (resp : DataResponse)
    (h : respWellTyped resp = true) :
    ∃ c pre, e.response resp = some (c, pre ++ [BusEvent.sendResponse resp]) ∧
      (∀ ev ∈ pre, ev.isSendResponse = false) ∧
      (isKnownTypeName resp.data_type.type_name = false →
        pre = [] ∧ c = e.cache) := by
  by_cases h1 : resp.data_type.type_name = "InstrumentAny"
  · cases hd : resp.data with
    | instruments xs =>
      refine ⟨(handle_instruments e.cache xs).1,
        (handle_instruments e.cache xs).2, ?_, ?_, ?_⟩
      · simp [DataEngine.response, h1, hd]
      · exact handle_instruments_no_send xs e.cache
      · intro hk
        simp [isKnownTypeName, h1] at hk
    | quotes xs => simp [respWellTyped, h1, hd] at h
    | trades xs => simp [respWellTyped, h1, hd] at h
    | bars xs => simp [respWellTyped, h1, hd] at h
    | custom => simp [respWellTyped, h1, hd] at h
  · by_cases h2 : resp.data_type.type_name = "QuoteTick"
    · cases hd : resp.data with
      | quotes xs =>
        refine ⟨(handle_quotes e.cache xs).1,
          (handle_quotes e.cache xs).2, ?_, ?_, ?_⟩
        · simp [DataEngine.response, h1, h2, hd]
        · exact handle_quotes_no_send e.cache xs
        · intro hk
          simp [isKnownTypeName, h2] at hk
      | instruments xs => simp [respWellTyped, h1, h2, hd] at h
      | trades xs => simp [respWellTyped, h1, h2, hd] at h
      | bars xs => simp [respWellTyped, h1, h2, hd] at h
      | custom => simp [respWellTyped, h1, h2, hd] at h
    · by_cases h3 : resp.data_type.type_name = "TradeTick"
      · cases hd : resp.data with
        | trades xs =>
          refine ⟨(handle_trades e.cache xs).1,
            (handle_trades e.cache xs).2, ?_, ?_, ?_⟩
          · simp [DataEngine.response, h1, h2, h3, hd]
          · exact handle_trades_no_send e.cache xs
          · intro hk
            simp [isKnownTypeName, h3] at hk
        | instruments xs => simp [respWellTyped, h1, h2, h3, hd] at h
        | quotes xs => simp [respWellTyped, h1, h2, h3, hd] at h
        | bars xs => simp [respWellTyped, h1, h2, h3, hd] at h
        | custom => simp [respWellTyped, h1, h2, h3, hd] at h
      · by_cases h4 : resp.data_type.type_name = "Bar"
        · cases hd : resp.data with
          | bars xs =>
            refine ⟨(handle_bars e.cache xs).1,
              (handle_bars e.cache xs).2, ?_, ?_, ?_⟩
            · simp [DataEngine.response, h1, h2, h3, h4, hd]
            · exact handle_bars_no_send e.cache xs
            · intro hk
              simp [isKnownTypeName, h4] at hk
          | instruments xs => simp [respWellTyped, h1, h2, h3, h4, hd] at h
          | quotes xs => simp [respWellTyped, h1, h2, h3, h4, hd] at h
          | trades xs => simp [respWellTyped, h1, h2, h3, h4, hd] at h
          | custom => simp [respWellTyped, h1, h2, h3, h4, hd] at h
        · refine ⟨e.cache, [], ?_, ?_, ?_⟩
          · simp [DataEngine.response, h1, h2, h3, h4]
          · intro ev hev
            simp at hev
          · intro _
            exact ⟨rfl, rfl⟩

/-- Witness for C5 at a concrete well-typed quote response. -/
theorem c5_response_republishes_witness :
    respWellTyped c5_resp = true ∧
    ∃ c pre, DataEngine.empty.response c5_resp =
        some (c, pre ++ [BusEvent.sendResponse c5_resp]) ∧
      (∀ ev ∈ pre, ev.isSendResponse = false) ∧
      (isKnownTypeName c5_resp.data_type.type_name = false →
        pre = [] ∧ c = DataEngine.empty.cache) :=
  ⟨rfl, c5_response_republishes DataEngine.empty c5_resp rfl⟩

/-- C6 counterexample: an `Unsubscribe` command with a known client id is
dispatched to that adapter, yet afterwards the command's `data_type` is
absent from the adapter's corresponding subscription set — the claim's
"data_type appears in the set" fails for unsubscribe commands. -/
theorem c6_counterexample_unsubscribe_removes :
    alookup ((c6_engine.execute (Message.subscription c6_unsub_cmd)).1.clients)
        (⟨1⟩ : ClientId) = some c6_empty_adapter ∧
    (categoryOf c6_unsub_cmd.data_type, c6_unsub_cmd.data_type) ∉
      c6_empty_adapter.subs := by
  refine ⟨by decide, ?_⟩
  simp [c6_empty_adapter]

/-- C6 amended: a `SubscriptionCommand` with a known client id is applied
to exactly the addressed adapter (never the default client, never venue
routing): a subscribe adds its `data_type` to the corresponding
subscription set, an unsubscribe removes it, and no other adapter, the
default client or the routing map changes; an unknown client id or a
non-command message leaves the engine unchanged. -/
theorem c6_execute_dispatches_to_addressed_adapter (e : DataEngine)
    (msg : Message) :
    (∀ cmd client, msg = Message.subscription cmd →
      alookup e.clients cmd.client_id = some client →
      alookup (e.execute msg).1.clients cmd.client_id =
          some (client.execute cmd) ∧
        (cmd.action = Action.subscribe →
          (categoryOf cmd.data_type, cmd.data_type) ∈
            (client.execute cmd).subs) ∧
        (cmd.action = Action.unsubscribe →
          (categoryOf cmd.data_type, cmd.data_type) ∉
            (client.execute cmd).subs) ∧
        (∀ cid2, cid2 ≠ cmd.client_id →
          alookup (e.execute msg).1.clients cid2 = alookup e.clients cid2) ∧
        (e.execute msg).1.default_client = e.default_client ∧
        (e.execute msg).1.routing_map = e.routing_map) ∧
    (∀ cmd, msg = Message.subscription cmd →
      alookup e.clients cmd.client_id = none → (e.execute msg).1 = e) ∧
    (msg = Message.other → (e.execute msg).1 = e) := by
  refine ⟨?_, ?_, ?_⟩
  · intro cmd client hmsg hcl
    subst hmsg
    simp only [DataEngine.execute, hcl]
    refine ⟨?_, ?_, ?_, ?_, by trivial, by trivial⟩
    · exact alookup_aupdate_self _ _ _ _ hcl
    · intro ha
      simp only [DataClientAdapter.execute, ha]
      exact subsAdd_mem _ _
    · intro ha
      simp only [DataClientAdapter.execute, ha]
      exact subsRemove_not_mem _ _
    · intro cid2 hne
      exact alookup_aupdate_ne _ _ _ _ hne
  · intro cmd hmsg hub
    subst hmsg
    simp [DataEngine.execute, hub]
  · intro hmsg
    subst hmsg
    rfl

/-- Witness for C6: a concrete subscribe command reaches its adapter and
its data type lands in the subscription set. -/
theorem c6_execute_dispatch_witness :
    (categoryOf c6_sub_cmd.data_type, c6_sub_cmd.data_type) ∈
      (c6_empty_adapter.execute c6_sub_cmd).subs ∧
    alookup ((c6_engine_clean.execute
        (Message.subscription c6_sub_cmd)).1.clients) (⟨1⟩ : ClientId) =
      some (c6_empty_adapter.execute c6_sub_cmd) := by
  have h := (c6_execute_dispatches_to_addressed_adapter c6_engine_clean
    (Message.subscription c6_sub_cmd)).1 c6_sub_cmd c6_empty_adapter rfl rfl
  exact ⟨h.2.1 rfl, h.1⟩

/-- C7: the quote and trade handlers perform the cache insert strictly
before the per-instrument topic publish, and the publish is the final
event in both the success and the error branch of the insert. -/
theorem c7_insert_before_publish (e : DataEngine) (q : QuoteTick)
    (t : TradeTick) :
    (∃ mid, (e.handle_quote q).2 =
      BusEvent.cacheInsertQuote q (!e.cache.fail_next) :: mid ++
        [BusEvent.publishQuote q.instrument_id q]) ∧
    (∃ mid, (e.handle_trade t).2 =
      BusEvent.cacheInsertTrade t (!e.cache.fail_next) :: mid ++
        [BusEvent.publishTrade t.instrument_id t]) := by
  constructor
  · by_cases hf : e.cache.fail_next
    · exact ⟨[BusEvent.logError "cache insert failed"],
        by simp [DataEngine.handle_quote, Cache.add_quote, hf]⟩
    · exact ⟨[], by simp [DataEngine.handle_quote, Cache.add_quote, hf]⟩
  · by_cases hf : e.cache.fail_next
    · exact ⟨[BusEvent.logError "cache insert failed"],
        by simp [DataEngine.handle_trade, Cache.add_trade, hf]⟩
    · exact ⟨[], by simp [DataEngine.handle_trade, Cache.add_trade, hf]⟩

/-- C8: registering a not-yet-registered adapter and then deregistering
it leaves `registed_clients` unchanged, and deregistering an unknown
client id leaves the whole engine unchanged. -/
theorem c8_register_deregister_round_trip (e : DataEngine)
    (a : DataClientAdapter) (routing : Option Venue) (cid : ClientId)
    (ha : alookup e.clients a.client_id = none)
    (hc : alookup e.clients cid = none) :
    ((e.register_client a routing).deregister_client
        a.client_id).registed_clients = e.registed_clients ∧
    e.deregister_client cid = e := by
  constructor
  · have hclients : (e.register_client a routing).clients =
        e.clients ++ [(a.client_id, a)] := by
      cases routing <;>
        simp [DataEngine.register_client, alookup_none_ainsert _ _ _ ha]
    simp [DataEngine.deregister_client, DataEngine.registed_clients, hclients,
      aremove_append, alookup_none_aremove _ _ ha, aremove]
  · have h2 : aremove e.clients cid = e.clients := alookup_none_aremove _ _ hc
    unfold DataEngine.deregister_client
    rw [h2]

/-- Witness for C8 at a concrete engine. -/
theorem c8_register_deregister_round_trip_witness :
    ((c8_engine.register_client c8_adapter_b none).deregister_client
        (⟨2⟩ : ClientId)).registed_clients = c8_engine.registed_clients ∧
    c8_engine.deregister_client ⟨3⟩ = c8_engine := by
  have h := c8_register_deregister_round_trip c8_engine c8_adapter_b none
    ⟨3⟩ rfl rfl
  exact ⟨h.1, h.2⟩

end Nautilus
